import Mathlib

/-!
Verification of the canort core: a shallow embedding of the canopy/layer
data model, the soil entity and the dielectric-constant subsystem
(`src/core/layer.py`, `src/core/canopy.py`, `src/core/soil.py`,
`src/core/sensor.py`, `src/dielectrics/water_dielectrics.py`,
`src/dielectrics/soil_dielectrics.py`, `src/core/constants.py`).

Pure float arithmetic of the data model is embedded over `ℚ`; the
dielectric formulas, which involve `π`, real powers and a complex square
root, are embedded over `ℝ` and `ℂ`.  Python's float division, which
raises `ZeroDivisionError` on a zero divisor, is modelled by `pydiv` /
`pydivR` returning `Except`; fallible constructors return `Except` as
well, carrying the source's error messages.
-/

namespace Canort

/-! ### Constants (`src/core/constants.py`) -/

def WATER_DENSITY_KG_M3 : ℚ := 1000.0

def ZERO : ℚ := 0.0

def ONE : ℚ := 1.0

def THOUSAND : ℚ := 1e3

def MM_TO_M : ℚ := 1e-3

def MIN_LAYER_THICKNESS : ℚ := 0.01

def MAX_LAYER_THICKNESS : ℚ := 100.0

def MIN_LAI : ℚ := 0.0

def MAX_LAI : ℚ := 10.0

def DEFAULT_LEAF_THICKNESS : ℚ := 0.17

def DEFAULT_DRY_MASS_DENSITY : ℚ := 0.3

def DEFAULT_WATER_VOLUMETRIC_FRACTION : ℚ := 0.0

def DEFAULT_LAI : ℚ := 0.0

def DEFAULT_SOIL_BULK_DENSITY : ℚ := 1.3

def DEFAULT_SOIL_SPECIFIC_DENSITY : ℚ := 2.65

def DEFAULT_RMS_HGT : ℚ := 0.01

def DEFAULT_CORR_LENGTH : ℚ := 0.1

def DEFAULT_SOIL_MOISTURE : ℚ := 0.2

def DEFAULT_SAND_FRACTION : ℚ := 0.5

def DEFAULT_CLAY_FRACTION : ℚ := 0.2

/-- Python float division on the rational fragment: `a / b` raises
`ZeroDivisionError` when `b` is zero. -/
def pydiv (a b : ℚ) : Except String ℚ :=
  if b = 0 then .error "ZeroDivisionError: float division by zero"
  else .ok (a / b)

/-- Python float division on the real fragment. -/
noncomputable def pydivR (a b : ℝ) : Except String ℝ :=
  if b = 0 then .error "ZeroDivisionError: float division by zero"
  else .ok (a / b)

/-! ### Layer (`src/core/layer.py`) -/

/-- The attributes a constructed `Layer` stores.  `dry_mass_density` is the
Python `Optional[float]` argument stored as passed (a `None` is kept and
only blows up later, when `agb` multiplies it). -/
structure Layer where
  thickness : ℚ
  temperature : ℚ
  leaf_thickness : ℚ
  water_volumetric_fraction : ℚ
  lai : ℚ
  dry_mass_density : Option ℚ
  dielectric_constant : Option ℂ

/-- Source `Layer.__init__`: validates thickness, lai and water fraction against
the constants, in source order, with the source's messages; every other
argument is stored unchecked. -/
def mkLayer (thickness temperature leaf_thickness water_volumetric_fraction lai : ℚ)
    (dry_mass_density : Option ℚ) (dielectric_constant : Option ℂ) :
    Except String Layer :=
  if thickness < MIN_LAYER_THICKNESS ∨ thickness > MAX_LAYER_THICKNESS then
    .error "Layer thickness must be between 0.01 and 100.0 meters"
  else if lai < MIN_LAI ∨ lai > MAX_LAI then
    .error "Leaf area index must be between 0.0 and 10.0"
  else if water_volumetric_fraction < ZERO ∨ water_volumetric_fraction > ONE then
    .error "Water volumetric fraction must be between 0.0 and 1.0"
  else
    .ok ⟨thickness, temperature, leaf_thickness, water_volumetric_fraction, lai,
      dry_mass_density, dielectric_constant⟩

/-- Source `Layer.layer_water_content`:
`water_volumetric_fraction * WATER_DENSITY_KG_M3 * lai * leaf_thickness * MM_TO_M`. -/
def Layer.layer_water_content (l : Layer) : ℚ :=
  l.water_volumetric_fraction * WATER_DENSITY_KG_M3 * l.lai * l.leaf_thickness * MM_TO_M

/-- Source `Layer.agb`:
`(ONE - water_volumetric_fraction) * dry_mass_density * THOUSAND * lai * leaf_thickness * MM_TO_M`;
multiplying a `None` `dry_mass_density` raises `TypeError` in Python. -/
def Layer.agb (l : Layer) : Except String ℚ :=
  match l.dry_mass_density with
  | none => .error "TypeError: unsupported operand type for NoneType"
  | some d =>
    .ok ((ONE - l.water_volumetric_fraction) * d * THOUSAND * l.lai * l.leaf_thickness * MM_TO_M)

/-- Source `Layer.lfmc`: `layer_water_content / agb`, with Python division. -/
def Layer.lfmc (l : Layer) : Except String ℚ := do
  let a ← l.agb
  pydiv l.layer_water_content a

/-- The validation predicate `Layer.__init__` enforces (the three checked
ranges, bounds included). -/
def Layer.valid (l : Layer) : Prop :=
  MIN_LAYER_THICKNESS ≤ l.thickness ∧ l.thickness ≤ MAX_LAYER_THICKNESS ∧
  MIN_LAI ≤ l.lai ∧ l.lai ≤ MAX_LAI ∧
  ZERO ≤ l.water_volumetric_fraction ∧ l.water_volumetric_fraction ≤ ONE

/-! ### Canopy (`src/core/canopy.py`) -/

/-- A canopy is its layer list, ordered bottom to top. -/
structure Canopy where
  layers : List Layer

def Canopy.nlayers (c : Canopy) : ℕ := c.layers.length

def Canopy.total_vwc (c : Canopy) : ℚ :=
  (c.layers.map Layer.layer_water_content).sum

/-- Source `Canopy.total_agb`: `sum(layer.agb for layer in self.layers)` — the
first `TypeError` raised by a layer propagates. -/
def Canopy.total_agb (c : Canopy) : Except String ℚ :=
  (c.layers.mapM Layer.agb).map fun l => l.sum

/-- Source `Canopy.mean_lfmc`: `total_vwc / total_agb` with Python division. -/
def Canopy.mean_lfmc (c : Canopy) : Except String ℚ := do
  let a ← c.total_agb
  pydiv c.total_vwc a

/-- Source `Canopy.append_layer`: push to the top (end of the list). -/
def Canopy.append_layer (c : Canopy) (l : Layer) : Canopy :=
  ⟨c.layers ++ [l]⟩

/-- Python `copy.deepcopy` of a layer: rebuilds every attribute (value semantics,
so it is the identity on the embedded record). -/
def Layer.deepcopy (l : Layer) : Layer :=
  ⟨l.thickness, l.temperature, l.leaf_thickness, l.water_volumetric_fraction,
    l.lai, l.dry_mass_density, l.dielectric_constant⟩

/-- Source `Canopy.__deepcopy__`: a new canopy with deep copies of all layers. -/
def Canopy.deepcopy (c : Canopy) : Canopy :=
  ⟨c.layers.map Layer.deepcopy⟩

/-- Source `Canopy.__add__`: deep-copy `self`, then append a deep copy of each of
`other`'s layers, in order. -/
def Canopy.add (a b : Canopy) : Canopy :=
  b.layers.foldl (fun acc l => acc.append_layer l.deepcopy) a.deepcopy

/-- The layer `Layer(thickness=1.0, temperature=300.0)` built by
`update_layer_number`, every other argument at its declared default. -/
def defaultNewLayer : Layer :=
  ⟨1.0, 300.0, DEFAULT_LEAF_THICKNESS, DEFAULT_WATER_VOLUMETRIC_FRACTION,
    DEFAULT_LAI, some DEFAULT_DRY_MASS_DENSITY, none⟩

/-- Source `Canopy.update_layer_number`: append default layers one by one while
below the requested count, truncate to the first `n_layers` entries when
above it, and do nothing at equality. -/
def Canopy.update_layer_number (c : Canopy) (n_layers : ℕ) : Canopy :=
  if n_layers > c.nlayers then
    (List.range (n_layers - c.nlayers)).foldl
      (fun acc _ => acc.append_layer defaultNewLayer) c
  else if n_layers < c.nlayers then
    ⟨c.layers.take n_layers⟩
  else c

/-! ### Soil (`src/core/soil.py`) -/

/-- The attributes a constructed `Soil` stores (the four optional ones
already resolved to their defaults, as `__init__` does). -/
structure Soil where
  temperature : ℚ
  moisture : ℚ
  sand : ℚ
  clay : ℚ
  diel_model : String
  rms_hgt : ℚ
  corr_length : ℚ
  bulk_density : ℚ
  specific_density : ℚ

/-- Source `Soil.__init__`: the nine validation checks in source order with the
source's messages.  Note the temperature check is `temperature < ZERO`, a
strict less-than against zero.  An optional argument passed as `none`
skips its check and falls back to the module default. -/
def mkSoil (temperature moisture sand clay : ℚ) (diel_model : String)
    (rms_hgt corr_length bulk_density specific_density : Option ℚ) :
    Except String Soil :=
  if moisture < ZERO ∨ moisture > ONE then
    .error "Soil moisture must be between 0.0 and 1.0"
  else if sand < ZERO ∨ sand > ONE then
    .error "Sand fraction must be between 0.0 and 1.0"
  else if clay < ZERO ∨ clay > ONE then
    .error "Clay fraction must be between 0.0 and 1.0"
  else if sand + clay > ONE then
    .error "Sum of sand and clay fractions cannot exceed 1"
  else if rms_hgt.any fun v => v ≤ ZERO then
    .error "Root mean square height must be positive"
  else if corr_length.any fun v => v ≤ ZERO then
    .error "Correlation length must be positive"
  else if temperature < ZERO then
    .error "Temperature must be positive"
  else if bulk_density.any fun v => v ≤ ZERO then
    .error "Bulk density must be positive"
  else if specific_density.any fun v => v ≤ ZERO then
    .error "Specific density must be positive"
  else
    .ok ⟨temperature, moisture, sand, clay, diel_model,
      rms_hgt.getD DEFAULT_RMS_HGT, corr_length.getD DEFAULT_CORR_LENGTH,
      bulk_density.getD DEFAULT_SOIL_BULK_DENSITY,
      specific_density.getD DEFAULT_SOIL_SPECIFIC_DENSITY⟩

/-! ### Water dielectrics (`src/dielectrics/water_dielectrics.py`) -/

/-- Source `WaterDiels.debye` — note the declared parameter order of the source,
`(frequency, temperature)`: `oC` is computed from the second parameter and
`omega` from the first.  The two divisions are Python float divisions. -/
noncomputable def debye (frequency temperature : ℝ) : Except String ℂ :=
  let oC := temperature - 273.15
  let es := 88.045 - 0.4147 * oC + 6.295e-4 * oC ^ 2 + 1.075e-5 * oC ^ 3
  let einf := (4.9 : ℝ)
  let tau := 1.1109e-10 - 3.824e-12 * oC + 6.938e-14 * oC ^ 2 - 5.096e-16 * oC ^ 3
  let omega := 2 * Real.pi * frequency * 1e9
  do
    let e_real ← pydivR (es - einf) (1 + (omega * tau) ^ 2)
    let e_imag ← pydivR ((es - einf) * omega * tau) (1 + (omega * tau) ^ 2)
    return ⟨einf + e_real, e_imag⟩

/-! ### Soil dielectrics (`src/dielectrics/soil_dielectrics.py`) -/

/-- The `SoilLike` protocol: the six fields the soil dielectric formulas
consume, as real numbers. -/
structure SoilLike where
  moisture : ℝ
  sand : ℝ
  clay : ℝ
  temperature : ℝ
  bulk_density : ℝ
  specific_density : ℝ

/-- Numpy `np.sqrt` on a complex argument: the principal square root,
`exp(log z / 2)`, i.e. `z ^ (1/2)` with the principal complex power. -/
noncomputable def csqrt (z : ℂ) : ℂ := z ^ ((2 : ℂ)⁻¹)

/-- Source `SoilDiels.dobson_model`.  `porosity` and `free_water` are computed but
unused, exactly as in the source (the porosity division can still raise).
The water permittivity is obtained by the source's call
`WaterDiels.debye(soil.temperature, frequency)`.  `moisture ** 0.65` is the
real power, faithful for the nonnegative moisture a validated soil
carries. -/
noncomputable def dobson_model (soil : SoilLike) (frequency : ℝ) : Except String ℂ := do
  let q ← pydivR soil.bulk_density soil.specific_density
  let _porosity := 1 - q
  let bound_water := 0.06774 - 0.06473 * soil.sand + 0.478 * soil.clay
  let free_water := soil.moisture - bound_water
  let _free_water := if free_water < 0 then (0 : ℝ) else free_water
  let water_diel ← debye soil.temperature frequency
  let z : ℂ := 1 + ((0.65 * soil.bulk_density : ℝ) : ℂ) +
    ((soil.moisture ^ (0.65 : ℝ) : ℝ) : ℂ) * water_diel - (soil.moisture : ℂ)
  return csqrt (z ^ 2)

/-- Source `SoilDiels.mironov_model`: `1 + (water_diel - 1) * moisture`, with the
water permittivity from `WaterDiels.debye(soil.temperature, frequency)`. -/
noncomputable def mironov_model (soil : SoilLike) (frequency : ℝ) : Except String ℂ := do
  let water_diel ← debye soil.temperature frequency
  return 1 + (water_diel - 1) * (soil.moisture : ℂ)

/-- Source `SoilDiels.wang_model`: textually the same computation as
`mironov_model` in this source. -/
noncomputable def wang_model (soil : SoilLike) (frequency : ℝ) : Except String ℂ := do
  let water_diel ← debye soil.temperature frequency
  return 1 + (water_diel - 1) * (soil.moisture : ℂ)

/-- Source `SoilDiels.get_model`: the three-entry name table; an unknown name
raises `ValueError` with the source's message. -/
noncomputable def get_model (model_name : String) :
    Except String (SoilLike → ℝ → Except String ℂ) :=
  if model_name = "dobson" then .ok dobson_model
  else if model_name = "mironov" then .ok mironov_model
  else if model_name = "wang" then .ok wang_model
  else .error ("Unknown dielectric model: " ++ model_name)

/-! ### Sensor (`src/core/sensor.py`), scalar case -/

/-- The sensor attributes consumed by the core; only `frequency` feeds the
dielectric query. -/
structure Sensor where
  frequency : ℝ
  theta_deg : ℝ
  polarization : List String
  name : Option String

/-- The soil-like view of a constructed `Soil`: its six compositional
fields, cast to the reals the dielectric formulas work over. -/
noncomputable def Soil.toSoilLike (s : Soil) : SoilLike :=
  ⟨(s.moisture : ℝ), (s.sand : ℝ), (s.clay : ℝ), (s.temperature : ℝ),
    (s.bulk_density : ℝ), (s.specific_density : ℝ)⟩

/-- Source `Soil.dielectric_constant`: resolve the configured model name through
`SoilDiels.get_model` (whose unknown-name `ValueError` propagates), then
invoke the resolved formula on `(self, sensor.frequency)`. -/
noncomputable def Soil.dielectric_constant (s : Soil) (sensor : Sensor) :
    Except String ℂ := do
  let diel_const_func ← get_model s.diel_model
  diel_const_func s.toSoilLike sensor.frequency

/-! ### Spec-side reference definitions

These two definitions follow the specification's words, not the source;
they exist to be compared against the source-derived definitions above. -/

/-- The Debye value exactly as §4.1 of the spec states it, with
`temperature` first: `t = temperature − 273.15`, `omega` from `frequency`,
real part `einf + (es − einf)/(1 + (omega·tau)²)`, imaginary part
`(es − einf)·omega·tau/(1 + (omega·tau)²)`. -/
noncomputable def debye_spec (temperature frequency : ℝ) : ℂ :=
  let t := temperature - 273.15
  let es := 88.045 - 0.4147 * t + 6.295e-4 * t ^ 2 + 1.075e-5 * t ^ 3
  let einf := (4.9 : ℝ)
  let tau := 1.1109e-10 - 3.824e-12 * t + 6.938e-14 * t ^ 2 - 5.096e-16 * t ^ 3
  let omega := 2 * Real.pi * frequency * 1e9
  ⟨einf + (es - einf) / (1 + (omega * tau) ^ 2),
    (es - einf) * omega * tau / (1 + (omega * tau) ^ 2)⟩

/-- The §4.2 Dobson value for the end-to-end scenario of §8, evaluated
independently per the spec's words: principal square root of
`(1 + 0.65·bulk_density + moisture^0.65·εw − moisture)²` with `εw` the
§4.1 Debye output for temperature 293.15 K and frequency 1.41 GHz, with
the scenario's default bulk density 1.3 and moisture 0.3. -/
noncomputable def dobson_spec_value : ℂ :=
  csqrt ((1 + ((0.65 * 1.3 : ℝ) : ℂ) +
    (((0.3 : ℝ) ^ (0.65 : ℝ) : ℝ) : ℂ) * debye_spec 293.15 1.41 - ((0.3 : ℝ) : ℂ)) ^ 2)

/-- The soil of the §8 end-to-end scenario:
`Soil(temperature=293.15, moisture=0.3, sand=0.6, clay=0.2, diel_model="dobson")`
with every optional argument at its declared default. -/
def c1_soil : Soil := ⟨293.15, 0.3, 0.6, 0.2, "dobson", 0.01, 0.1, 1.3, 2.65⟩

/-- The sensor of the §8 end-to-end scenario: frequency 1.41 GHz. -/
noncomputable def c1_sensor : Sensor := ⟨1.41, 0.0, ["V", "H"], none⟩

/-! ### Helper lemmas -/

/-- The source `debye` never raises and returns the spec formula with its
two roles attached to the opposite positions: the second parameter drives
the Celsius conversion, the first drives the angular frequency. -/
theorem debye_eq (frequency temperature : ℝ) :
    debye frequency temperature = .ok (debye_spec temperature frequency) := by
  have h : (1 : ℝ) + ((2 * Real.pi * frequency * 1e9) *
      (1.1109e-10 - 3.824e-12 * (temperature - 273.15) +
        6.938e-14 * (temperature - 273.15) ^ 2 -
        5.096e-16 * (temperature - 273.15) ^ 3)) ^ 2 ≠ 0 := by positivity
  simp only [debye, debye_spec, pydivR, if_neg h]
  rfl

theorem debye_spec_re (T f : ℝ) :
    (debye_spec T f).re =
      4.9 + ((88.045 - 0.4147 * (T - 273.15) + 6.295e-4 * (T - 273.15) ^ 2 +
          1.075e-5 * (T - 273.15) ^ 3) - 4.9) /
        (1 + (2 * Real.pi * f * 1e9 *
          (1.1109e-10 - 3.824e-12 * (T - 273.15) + 6.938e-14 * (T - 273.15) ^ 2 -
            5.096e-16 * (T - 273.15) ^ 3)) ^ 2) := rfl

/-- The Debye value the Dobson call site actually produces in the §8
scenario (temperature 293.15 passed into the frequency slot) stays below
10 in real part: the relaxation term is evaluated at −271.74 °C and the
angular frequency at 293.15 GHz. -/
theorem debye_swapped_re_lt_ten : (debye_spec 1.41 293.15).re < 10 := by
  rw [debye_spec_re]
  have hπ : (3:ℝ) < Real.pi := Real.pi_gt_three
  set τ : ℝ := 1.1109e-10 - 3.824e-12 * ((1.41:ℝ) - 273.15) +
      6.938e-14 * ((1.41:ℝ) - 273.15) ^ 2 - 5.096e-16 * ((1.41:ℝ) - 273.15) ^ 3 with hτdef
  have hτ_lb : (1.6e-8:ℝ) < τ := by rw [hτdef]; norm_num
  have hy : (28142.4:ℝ) < 2 * Real.pi * 293.15 * 1e9 * τ := by
    nlinarith [mul_pos (sub_pos.mpr hπ) (sub_pos.mpr hτ_lb)]
  have hy2 : (791994677 : ℝ) < (2 * Real.pi * 293.15 * 1e9 * τ) ^ 2 := by
    nlinarith [hy]
  have hden0 : (0:ℝ) < 1 + (2 * Real.pi * 293.15 * 1e9 * τ) ^ 2 := by positivity
  have hdiv : ((88.045 - 0.4147 * ((1.41:ℝ) - 273.15) + 6.295e-4 * ((1.41:ℝ) - 273.15) ^ 2 +
      1.075e-5 * ((1.41:ℝ) - 273.15) ^ 3) - 4.9) /
      (1 + (2 * Real.pi * 293.15 * 1e9 * τ) ^ 2) < 0.1 := by
    rw [div_lt_iff₀ hden0]
    nlinarith [hy2]
  linarith

theorem debye_swapped_re_gt : (4.9:ℝ) < (debye_spec 1.41 293.15).re := by
  rw [debye_spec_re]
  have hden0 : (0:ℝ) < 1 + (2 * Real.pi * 293.15 * 1e9 *
      (1.1109e-10 - 3.824e-12 * ((1.41:ℝ) - 273.15) +
        6.938e-14 * ((1.41:ℝ) - 273.15) ^ 2 - 5.096e-16 * ((1.41:ℝ) - 273.15) ^ 3)) ^ 2 := by
    positivity
  have hnum : (0:ℝ) < (88.045 - 0.4147 * ((1.41:ℝ) - 273.15) +
      6.295e-4 * ((1.41:ℝ) - 273.15) ^ 2 + 1.075e-5 * ((1.41:ℝ) - 273.15) ^ 3) - 4.9 := by
    norm_num
  have := div_pos hnum hden0
  linarith

/-- The §4.1 Debye value at 20 °C and 1.41 GHz has real part above 10
(numerically ≈ 64). -/
theorem debye_correct_re_gt_ten : (10:ℝ) < (debye_spec 293.15 1.41).re := by
  rw [debye_spec_re]
  have hπ : Real.pi < 3.15 := Real.pi_lt_d2
  have hπ0 : (0:ℝ) < Real.pi := Real.pi_pos
  set τ : ℝ := 1.1109e-10 - 3.824e-12 * ((293.15:ℝ) - 273.15) +
      6.938e-14 * ((293.15:ℝ) - 273.15) ^ 2 - 5.096e-16 * ((293.15:ℝ) - 273.15) ^ 3 with hτdef
  have hτ_eq : τ = 5.82852e-11 := by rw [hτdef]; norm_num
  have hy0 : (0:ℝ) ≤ 2 * Real.pi * 1.41 * 1e9 * τ := by
    rw [hτ_eq]; positivity
  have hy : 2 * Real.pi * 1.41 * 1e9 * τ < 0.51774744 := by
    rw [hτ_eq]; nlinarith [hπ]
  have hy2 : (2 * Real.pi * 1.41 * 1e9 * τ) ^ 2 < 0.26807 := by
    nlinarith [hy, hy0]
  have hden0 : (0:ℝ) < 1 + (2 * Real.pi * 1.41 * 1e9 * τ) ^ 2 := by positivity
  have hdiv : (5.2:ℝ) < ((88.045 - 0.4147 * ((293.15:ℝ) - 273.15) +
      6.295e-4 * ((293.15:ℝ) - 273.15) ^ 2 + 1.075e-5 * ((293.15:ℝ) - 273.15) ^ 3) - 4.9) /
      (1 + (2 * Real.pi * 1.41 * 1e9 * τ) ^ 2) := by
    rw [lt_div_iff₀ hden0]
    nlinarith [hy2]
  linarith

/-- The principal square root of a square separates points of the open
right half plane with distinct real parts. -/
theorem csqrt_sq_ne {z₁ z₂ : ℂ} (h1 : 0 < z₁.re) (h2 : 0 < z₂.re)
    (hne : z₁.re ≠ z₂.re) : csqrt (z₁ ^ 2) ≠ csqrt (z₂ ^ 2) := by
  intro h
  have e1 : csqrt (z₁ ^ 2) ^ (2:ℕ) = z₁ ^ 2 := Complex.cpow_ofNat_inv_pow (z₁ ^ 2) 2
  have e2 : csqrt (z₂ ^ 2) ^ (2:ℕ) = z₂ ^ 2 := Complex.cpow_ofNat_inv_pow (z₂ ^ 2) 2
  have hsq : z₁ ^ 2 = z₂ ^ 2 := by rw [← e1, ← e2, h]
  have hfac : (z₁ - z₂) * (z₁ + z₂) = 0 := by linear_combination hsq
  rcases mul_eq_zero.mp hfac with h0 | h0
  · have hz : z₁ = z₂ := sub_eq_zero.mp h0
    exact hne (by rw [hz])
  · have hz : z₁ = -z₂ := by linear_combination h0
    have hre : z₁.re = -z₂.re := by rw [hz]; simp
    linarith

theorem mironov_eval (s : SoilLike) (f : ℝ) :
    mironov_model s f = .ok (1 + (debye_spec f s.temperature - 1) * (s.moisture : ℂ)) := by
  simp only [mironov_model, debye_eq]
  rfl

theorem wang_eval (s : SoilLike) (f : ℝ) :
    wang_model s f = .ok (1 + (debye_spec f s.temperature - 1) * (s.moisture : ℂ)) := by
  simp only [wang_model, debye_eq]
  rfl

theorem dobson_eval (s : SoilLike) (f : ℝ) (hsd : s.specific_density ≠ 0) :
    dobson_model s f = .ok (csqrt ((1 + ((0.65 * s.bulk_density : ℝ) : ℂ) +
      ((s.moisture ^ (0.65 : ℝ) : ℝ) : ℂ) * debye_spec f s.temperature -
        (s.moisture : ℂ)) ^ 2)) := by
  simp only [dobson_model, pydivR, if_neg hsd, debye_eq]
  rfl

theorem c1_soilLike_eq :
    c1_soil.toSoilLike = ⟨0.3, 0.6, 0.2, 293.15, 1.3, 2.65⟩ := by
  simp only [Soil.toSoilLike, c1_soil, SoilLike.mk.injEq]
  norm_num

theorem z_part_re (w : ℂ) :
    (1 + ((0.65 * 1.3 : ℝ) : ℂ) + (((0.3:ℝ) ^ (0.65:ℝ) : ℝ) : ℂ) * w -
      ((0.3:ℝ) : ℂ)).re = 1 + 0.65 * 1.3 + (0.3:ℝ) ^ (0.65:ℝ) * w.re - 0.3 := by
  simp

/-! ### Claims -/

/-- Claim C1.  The §8 end-to-end scenario: the Soil construction succeeds
and stores the scenario state, but `soil.dielectric_constant(sensor)` does
NOT equal the independently evaluated §4.2 Dobson value built on the §4.1
Debye output for temperature 293.15 K and frequency 1.41 GHz: the call
site passes `(soil.temperature, frequency)` to a `debye` declared
`(frequency, temperature)`, so the water permittivity is evaluated with
the two roles exchanged.  The claim fails on the code. -/
theorem C1_dobson_scenario_diverges_from_spec :
    mkSoil 293.15 0.3 0.6 0.2 "dobson" (some DEFAULT_RMS_HGT) (some DEFAULT_CORR_LENGTH)
      (some DEFAULT_SOIL_BULK_DENSITY) (some DEFAULT_SOIL_SPECIFIC_DENSITY) = .ok c1_soil ∧
    Soil.dielectric_constant c1_soil c1_sensor ≠ Except.ok dobson_spec_value := by
  constructor
  · norm_num [mkSoil, c1_soil, ZERO, ONE, DEFAULT_RMS_HGT, DEFAULT_CORR_LENGTH,
      DEFAULT_SOIL_BULK_DENSITY, DEFAULT_SOIL_SPECIFIC_DENSITY, Option.any]
  · have hdc : Soil.dielectric_constant c1_soil c1_sensor =
        dobson_model c1_soil.toSoilLike 1.41 := rfl
    rw [hdc, c1_soilLike_eq,
      dobson_eval ⟨0.3, 0.6, 0.2, 293.15, 1.3, 2.65⟩ 1.41 (by norm_num)]
    intro h
    injection h with h'
    unfold dobson_spec_value at h'
    have hp : (0:ℝ) < (0.3:ℝ) ^ (0.65:ℝ) := Real.rpow_pos_of_pos (by norm_num) _
    have hA₁ := debye_swapped_re_gt
    have hA₂ := debye_swapped_re_lt_ten
    have hB := debye_correct_re_gt_ten
    refine csqrt_sq_ne ?_ ?_ ?_ h'
    · rw [z_part_re]
      nlinarith [hp, hA₁]
    · rw [z_part_re]
      nlinarith [hp, hB]
    · rw [z_part_re, z_part_re]
      have : (0.3:ℝ) ^ (0.65:ℝ) * (debye_spec 1.41 293.15).re <
          (0.3:ℝ) ^ (0.65:ℝ) * (debye_spec 293.15 1.41).re := by
        apply mul_lt_mul_of_pos_left _ hp
        linarith
      intro heq
      linarith

/-- Claim C2, counterexample.  The claim reads `debye`'s first argument as
the temperature in Kelvin and its second as the frequency in GHz; at
(293.15, 1.41) the source function does not return the value the claim's
formula assigns to that reading (their real parts sit on opposite sides
of 10). -/
theorem C2_counterexample_arg_order :
    debye 293.15 1.41 ≠ Except.ok (debye_spec 293.15 1.41) := by
  rw [debye_eq]
  intro h
  injection h with h'
  have h1 := debye_swapped_re_lt_ten
  have h2 := debye_correct_re_gt_ten
  rw [h'] at h1
  linarith

/-- Claim C2 as amended: `debye` is total, but its FIRST argument is the
frequency in GHz and its SECOND the temperature in Kelvin; it returns the
single complex value of the claim's formula with the roles so attached
(`debye_spec` spells out that formula with temperature first). -/
theorem C2_debye_total_formula :
    ∀ frequency temperature : ℝ,
      debye frequency temperature = Except.ok (debye_spec temperature frequency) :=
  debye_eq

/-- Claim C3.  The code violates the claim at temperature 0: the source
check is `temperature < ZERO`, so a soil at exactly 0 K is accepted even
though the invariant (and the code's own message "Temperature must be
positive") requires strictly positive temperature; a negative temperature
is still rejected. -/
theorem C3_temperature_zero_accepted :
    mkSoil 0 DEFAULT_SOIL_MOISTURE DEFAULT_SAND_FRACTION DEFAULT_CLAY_FRACTION "dobson"
      (some DEFAULT_RMS_HGT) (some DEFAULT_CORR_LENGTH) (some DEFAULT_SOIL_BULK_DENSITY)
      (some DEFAULT_SOIL_SPECIFIC_DENSITY) =
      .ok ⟨0, 0.2, 0.5, 0.2, "dobson", 0.01, 0.1, 1.3, 2.65⟩ ∧
    mkSoil (-1) DEFAULT_SOIL_MOISTURE DEFAULT_SAND_FRACTION DEFAULT_CLAY_FRACTION "dobson"
      (some DEFAULT_RMS_HGT) (some DEFAULT_CORR_LENGTH) (some DEFAULT_SOIL_BULK_DENSITY)
      (some DEFAULT_SOIL_SPECIFIC_DENSITY) = .error "Temperature must be positive" := by
  constructor <;>
    norm_num [mkSoil, ZERO, ONE, DEFAULT_SOIL_MOISTURE, DEFAULT_SAND_FRACTION,
      DEFAULT_CLAY_FRACTION, DEFAULT_RMS_HGT, DEFAULT_CORR_LENGTH,
      DEFAULT_SOIL_BULK_DENSITY, DEFAULT_SOIL_SPECIFIC_DENSITY, Option.any]

/-- Claim C4, counterexample.  Construction validates neither
`leaf_thickness` nor `dry_mass_density`, so a validly constructed layer
can carry a negative leaf thickness, making its water content negative:
`Layer(thickness=1, temperature=300, leaf_thickness=-1, wvf=1/2, lai=1,
dmd=3/10)` constructs fine and has water content −1/2 < 0. -/
theorem C4_counterexample_negative_water :
    (mkLayer 1 300 (-1) (1/2) 1 (some (3/10)) none).map Layer.layer_water_content =
      .ok (-(1/2) : ℚ) ∧ ¬ (0:ℚ) ≤ -(1/2) := by
  constructor
  · norm_num [mkLayer, MIN_LAYER_THICKNESS, MAX_LAYER_THICKNESS, MIN_LAI, MAX_LAI,
      ZERO, ONE, Layer.layer_water_content, WATER_DENSITY_KG_M3, MM_TO_M, Except.map]
  · norm_num

/-- Claim C4 as amended: the water-content and biomass formulas hold as
stated; both quantities are nonnegative for a validly constructed layer
PROVIDED the unvalidated `leaf_thickness` and `dry_mass_density` are
themselves nonnegative; both scale linearly in `lai` and in
`leaf_thickness`; and whenever agb is nonzero, lfmc is their quotient. -/
theorem C4_layer_derived_quantities :
    ∀ (l : Layer) (k d : ℚ),
      Layer.layer_water_content l =
        l.water_volumetric_fraction * 1000 * l.lai * l.leaf_thickness * (1/1000) ∧
      (l.dry_mass_density = some d →
        Layer.agb l = .ok ((1 - l.water_volumetric_fraction) * (d * 1000) *
          l.lai * l.leaf_thickness * (1/1000))) ∧
      (l.valid → 0 ≤ l.leaf_thickness → 0 ≤ Layer.layer_water_content l) ∧
      (l.valid → 0 ≤ l.leaf_thickness → l.dry_mass_density = some d → 0 ≤ d →
        ∃ a, Layer.agb l = .ok a ∧ 0 ≤ a) ∧
      Layer.layer_water_content { l with lai := k * l.lai } =
        k * Layer.layer_water_content l ∧
      Layer.layer_water_content { l with leaf_thickness := k * l.leaf_thickness } =
        k * Layer.layer_water_content l ∧
      Layer.agb { l with lai := k * l.lai } = (Layer.agb l).map (fun a => k * a) ∧
      Layer.agb { l with leaf_thickness := k * l.leaf_thickness } =
        (Layer.agb l).map (fun a => k * a) ∧
      (∀ a, Layer.agb l = .ok a → a ≠ 0 →
        Layer.lfmc l = .ok (Layer.layer_water_content l / a)) := by
  intro l k d
  have hwc : Layer.layer_water_content l =
      l.water_volumetric_fraction * 1000 * l.lai * l.leaf_thickness * (1/1000) := by
    simp only [Layer.layer_water_content, WATER_DENSITY_KG_M3, MM_TO_M]
    norm_num
  refine ⟨hwc, ?_, ?_, ?_, ?_, ?_, ?_, ?_, ?_⟩
  · intro hd
    simp only [Layer.agb, hd, ONE, THOUSAND, MM_TO_M, Except.ok.injEq]
    ring_nf
  · rintro ⟨-, -, h3, -, h5, -⟩ hlt
    have h3' : (0:ℚ) ≤ l.lai := by norm_num [MIN_LAI] at h3; exact h3
    have h5' : (0:ℚ) ≤ l.water_volumetric_fraction := by norm_num [ZERO] at h5; exact h5
    rw [hwc]
    have := mul_nonneg (mul_nonneg (mul_nonneg (mul_nonneg h5'
      (by norm_num : (0:ℚ) ≤ 1000)) h3') hlt) (by norm_num : (0:ℚ) ≤ 1/1000)
    linarith
  · rintro ⟨-, -, h3, -, -, h6⟩ hlt hd hd0
    have h3' : (0:ℚ) ≤ l.lai := by norm_num [MIN_LAI] at h3; exact h3
    have h6' : l.water_volumetric_fraction ≤ 1 := by norm_num [ONE] at h6; exact h6
    refine ⟨(1 - l.water_volumetric_fraction) * d * 1000 * l.lai *
      l.leaf_thickness * (1/1000), ?_, ?_⟩
    · simp only [Layer.agb, hd, ONE, THOUSAND, MM_TO_M]
      norm_num
    · have h1 : (0:ℚ) ≤ 1 - l.water_volumetric_fraction := by linarith
      exact mul_nonneg (mul_nonneg (mul_nonneg (mul_nonneg (mul_nonneg h1 hd0)
        (by norm_num)) h3') hlt) (by norm_num)
  · simp only [Layer.layer_water_content]
    ring
  · simp only [Layer.layer_water_content]
    ring
  · cases hd : l.dry_mass_density with
    | none => simp [Layer.agb, hd, Except.map]
    | some d' =>
      simp only [Layer.agb, hd, Except.map]
      norm_num
      ring
  · cases hd : l.dry_mass_density with
    | none => simp [Layer.agb, hd, Except.map]
    | some d' =>
      simp only [Layer.agb, hd, Except.map]
      norm_num
      ring
  · intro a ha ha0
    have h1 : Layer.lfmc l = pydiv l.layer_water_content a := by
      simp only [Layer.lfmc, ha]
      rfl
    rw [h1, pydiv, if_neg ha0]

/-- Witness for C4: the layer `(1, 300, 2, 1/2, 3, some 3/10)` is valid,
has nonnegative water content, and its lfmc is water content 3 divided by
agb 9/10. -/
theorem C4_layer_derived_quantities_witness :
    Layer.agb ⟨1, 300, 2, 1/2, 3, some (3/10), none⟩ = .ok (9/10) ∧
    0 ≤ Layer.layer_water_content ⟨1, 300, 2, 1/2, 3, some (3/10), none⟩ ∧
    (∃ a, Layer.agb ⟨1, 300, 2, 1/2, 3, some (3/10), none⟩ = .ok a ∧ 0 ≤ a) ∧
    Layer.lfmc ⟨1, 300, 2, 1/2, 3, some (3/10), none⟩ = .ok (10/3) := by
  have h := C4_layer_derived_quantities ⟨1, 300, 2, 1/2, 3, some (3/10), none⟩ 1 (3/10)
  have hvalid : (⟨1, 300, 2, 1/2, 3, some (3/10), none⟩ : Layer).valid := by
    norm_num [Layer.valid, MIN_LAYER_THICKNESS, MAX_LAYER_THICKNESS,
      MIN_LAI, MAX_LAI, ZERO, ONE]
  have hagb : Layer.agb ⟨1, 300, 2, 1/2, 3, some (3/10), none⟩ = .ok (9/10) := by
    rw [h.2.1 rfl]
    norm_num
  refine ⟨hagb, h.2.2.1 hvalid (by norm_num),
    h.2.2.2.1 hvalid (by norm_num) rfl (by norm_num), ?_⟩
  rw [h.2.2.2.2.2.2.2.2 (9/10) hagb (by norm_num)]
  norm_num [Layer.layer_water_content, WATER_DENSITY_KG_M3, MM_TO_M]

/-- Claim C5.  Layer construction succeeds exactly when thickness lies in
[0.01, 100], lai in [0, 10] and the water fraction in [0, 1], bounds
included; temperature, leaf thickness and dry mass density are never
validated. -/
theorem C5_layer_validation :
    ∀ (thickness temperature leaf_thickness wvf lai : ℚ)
      (dmd : Option ℚ) (dc : Option ℂ),
      (∃ l, mkLayer thickness temperature leaf_thickness wvf lai dmd dc = .ok l) ↔
        (0.01 ≤ thickness ∧ thickness ≤ 100 ∧ 0 ≤ lai ∧ lai ≤ 10 ∧
          0 ≤ wvf ∧ wvf ≤ 1) := by
  intro thickness temperature leaf_thickness wvf lai dmd dc
  unfold mkLayer
  simp only [MIN_LAYER_THICKNESS, MAX_LAYER_THICKNESS, MIN_LAI, MAX_LAI, ZERO, ONE]
  constructor
  · rintro ⟨l, hl⟩
    split_ifs at hl with h1 h2 h3
    · push_neg at h1 h2 h3
      norm_num at h1 h2 h3 ⊢
      exact ⟨h1.1, h1.2, h2.1, h2.2, h3.1, h3.2⟩
  · rintro ⟨ha, hb, hc, hd, he, hf⟩
    split_ifs with h1 h2 h3
    · exfalso
      norm_num at h1
      rcases h1 with h | h <;> linarith
    · exfalso
      norm_num at h2
      rcases h2 with h | h <;> linarith
    · exfalso
      norm_num at h3
      rcases h3 with h | h <;> linarith
    · exact ⟨_, rfl⟩

/-- Witness for C5: both extreme corners of the valid box construct. -/
theorem C5_layer_validation_witness :
    (∃ l, mkLayer 0.01 300 0.17 0 0 (some 0.3) none = .ok l) ∧
    (∃ l, mkLayer 100 0 (-5) 1 10 none none = .ok l) := by
  constructor
  · exact (C5_layer_validation 0.01 300 0.17 0 0 (some 0.3) none).mpr (by norm_num)
  · exact (C5_layer_validation 100 0 (-5) 1 10 none none).mpr (by norm_num)

theorem Layer.deepcopy_eq (l : Layer) : l.deepcopy = l := rfl

theorem foldl_append_layers (bs : List Layer) (c : Canopy) :
    (bs.foldl (fun acc l => acc.append_layer l.deepcopy) c).layers = c.layers ++ bs := by
  induction bs generalizing c with
  | nil => simp
  | cons x xs ih =>
    rw [List.foldl_cons, ih]
    show (c.layers ++ [x.deepcopy]) ++ xs = c.layers ++ x :: xs
    rw [Layer.deepcopy_eq, List.append_assoc]
    rfl

theorem add_layers (a b : Canopy) : (a.add b).layers = a.layers ++ b.layers := by
  unfold Canopy.add
  rw [foldl_append_layers]
  have hdc : Layer.deepcopy = id := funext Layer.deepcopy_eq
  congr 1
  rw [Canopy.deepcopy, hdc, List.map_id]

/-- Claim C6.  The layer sequence of `a + b` is `a`'s layers followed by
`b`'s layers; stacking is associative on layer sequences, and an explicit
pair shows it is not commutative. -/
theorem C6_combine_stacking :
    (∀ a b : Canopy, (a.add b).layers = a.layers ++ b.layers) ∧
    (∀ a b c : Canopy, ((a.add b).add c).layers = (a.add (b.add c)).layers) ∧
    (∃ a b : Canopy, (a.add b).layers ≠ (b.add a).layers) := by
  refine ⟨add_layers, ?_, ?_⟩
  · intro a b c
    simp [add_layers, List.append_assoc]
  · refine ⟨⟨[defaultNewLayer]⟩, ⟨[{ defaultNewLayer with thickness := 2 }]⟩, ?_⟩
    simp only [add_layers]
    intro h
    have h2 := congrArg (fun ls => ls.map Layer.thickness) h
    norm_num [defaultNewLayer] at h2

theorem foldl_append_default (bs : List ℕ) (c : Canopy) :
    (bs.foldl (fun acc _ => acc.append_layer defaultNewLayer) c).layers =
      c.layers ++ List.replicate bs.length defaultNewLayer := by
  induction bs generalizing c with
  | nil => simp
  | cons x xs ih =>
    rw [List.foldl_cons, ih]
    show (c.layers ++ [defaultNewLayer]) ++ _ = _
    rw [List.append_assoc, List.length_cons, List.replicate_succ]
    rfl

/-- Claim C8.  `update_layer_number(n)` appends `n − k` default layers
(thickness 1.0 and temperature 300.0, all other fields at their defaults —
the last conjunct checks the defaulted constructor call yields exactly
that layer) when `n > k`, keeps exactly the first (bottom) `n` layers when
`n < k`, and leaves the canopy unchanged when `n = k`. -/
theorem C8_update_layer_number :
    ∀ (c : Canopy) (n : ℕ),
      (c.nlayers < n → (c.update_layer_number n).layers =
        c.layers ++ List.replicate (n - c.nlayers) defaultNewLayer) ∧
      (n < c.nlayers → (c.update_layer_number n).layers = c.layers.take n) ∧
      (n = c.nlayers → c.update_layer_number n = c) ∧
      mkLayer 1.0 300.0 DEFAULT_LEAF_THICKNESS DEFAULT_WATER_VOLUMETRIC_FRACTION DEFAULT_LAI
        (some DEFAULT_DRY_MASS_DENSITY) none = .ok defaultNewLayer := by
  intro c n
  refine ⟨?_, ?_, ?_, ?_⟩
  · intro h
    unfold Canopy.update_layer_number
    rw [if_pos h, foldl_append_default, List.length_range]
  · intro h
    unfold Canopy.update_layer_number
    rw [if_neg (by omega), if_pos h]
  · intro h
    unfold Canopy.update_layer_number
    rw [if_neg (by omega), if_neg (by omega)]
  · norm_num [mkLayer, MIN_LAYER_THICKNESS, MAX_LAYER_THICKNESS, MIN_LAI, MAX_LAI,
      ZERO, ONE, defaultNewLayer, DEFAULT_LEAF_THICKNESS,
      DEFAULT_WATER_VOLUMETRIC_FRACTION, DEFAULT_LAI, DEFAULT_DRY_MASS_DENSITY]

/-- Witness for C8: growing a one-layer canopy to three appends two
default layers; shrinking a two-layer canopy to one keeps the bottom
layer; resizing to the current count is the identity. -/
theorem C8_update_layer_number_witness :
    ((⟨[defaultNewLayer]⟩ : Canopy).update_layer_number 3).layers =
      [defaultNewLayer] ++ List.replicate 2 defaultNewLayer ∧
    ((⟨[defaultNewLayer, { defaultNewLayer with thickness := 2 }]⟩ :
        Canopy).update_layer_number 1).layers = [defaultNewLayer] ∧
    (⟨[defaultNewLayer]⟩ : Canopy).update_layer_number 1 = ⟨[defaultNewLayer]⟩ := by
  refine ⟨?_, ?_, ?_⟩
  · have h := (C8_update_layer_number ⟨[defaultNewLayer]⟩ 3).1
      (by norm_num [Canopy.nlayers])
    simpa [Canopy.nlayers] using h
  · have h := (C8_update_layer_number
      ⟨[defaultNewLayer, { defaultNewLayer with thickness := 2 }]⟩ 1).2.1
      (by norm_num [Canopy.nlayers])
    simpa using h
  · exact (C8_update_layer_number ⟨[defaultNewLayer]⟩ 1).2.2.1
      (by norm_num [Canopy.nlayers])

/-- Claim C7.  The registry resolves exactly the three model names,
errors on every other name with the unknown-model message, soil
construction outcome is independent of the configured name, and
`dielectric_constant` surfaces the unknown-model error at query time with
no fallback. -/
theorem C7_model_dispatch :
    get_model "dobson" = .ok dobson_model ∧
    get_model "mironov" = .ok mironov_model ∧
    get_model "wang" = .ok wang_model ∧
    (∀ name : String, name ≠ "dobson" → name ≠ "mironov" → name ≠ "wang" →
      get_model name = .error ("Unknown dielectric model: " ++ name)) ∧
    (∀ (temperature moisture sand clay : ℚ) (n₁ n₂ : String) (r c b sd : Option ℚ),
      (mkSoil temperature moisture sand clay n₁ r c b sd).isOk =
        (mkSoil temperature moisture sand clay n₂ r c b sd).isOk) ∧
    (∀ (s : Soil) (sen : Sensor), s.diel_model ≠ "dobson" → s.diel_model ≠ "mironov" →
      s.diel_model ≠ "wang" →
      Soil.dielectric_constant s sen =
        .error ("Unknown dielectric model: " ++ s.diel_model)) := by
  have hname : ∀ (temperature moisture sand clay : ℚ) (n₁ n₂ : String)
      (r c b sd : Option ℚ),
      (mkSoil temperature moisture sand clay n₁ r c b sd).isOk =
        (mkSoil temperature moisture sand clay n₂ r c b sd).isOk := by
    intro temperature moisture sand clay n₁ n₂ r c b sd
    unfold mkSoil
    by_cases h1 : moisture < ZERO ∨ moisture > ONE
    · rw [if_pos h1, if_pos h1]
    rw [if_neg h1, if_neg h1]
    by_cases h2 : sand < ZERO ∨ sand > ONE
    · rw [if_pos h2, if_pos h2]
    rw [if_neg h2, if_neg h2]
    by_cases h3 : clay < ZERO ∨ clay > ONE
    · rw [if_pos h3, if_pos h3]
    rw [if_neg h3, if_neg h3]
    by_cases h4 : sand + clay > ONE
    · rw [if_pos h4, if_pos h4]
    rw [if_neg h4, if_neg h4]
    by_cases h5 : (r.any fun v => v ≤ ZERO) = true
    · rw [if_pos h5, if_pos h5]
    rw [if_neg h5, if_neg h5]
    by_cases h6 : (c.any fun v => v ≤ ZERO) = true
    · rw [if_pos h6, if_pos h6]
    rw [if_neg h6, if_neg h6]
    by_cases h7 : temperature < ZERO
    · rw [if_pos h7, if_pos h7]
    rw [if_neg h7, if_neg h7]
    by_cases h8 : (b.any fun v => v ≤ ZERO) = true
    · rw [if_pos h8, if_pos h8]
    rw [if_neg h8, if_neg h8]
    by_cases h9 : (sd.any fun v => v ≤ ZERO) = true
    · rw [if_pos h9, if_pos h9]
    rw [if_neg h9, if_neg h9]
    rfl
  refine ⟨rfl, rfl, rfl, ?_, hname, ?_⟩
  · intro name h1 h2 h3
    simp only [get_model, if_neg h1, if_neg h2, if_neg h3]
  · intro s sen h1 h2 h3
    unfold Soil.dielectric_constant
    simp only [get_model, if_neg h1, if_neg h2, if_neg h3]
    rfl

/-- Witness for C7: the name "unknown" is rejected by the registry and by
the query, while soil construction with it succeeds exactly as with
"dobson". -/
theorem C7_model_dispatch_witness :
    get_model "unknown" = .error "Unknown dielectric model: unknown" ∧
    Soil.dielectric_constant ⟨293.15, 0.2, 0.5, 0.2, "unknown", 0.01, 0.1, 1.3, 2.65⟩
      c1_sensor = .error "Unknown dielectric model: unknown" ∧
    (mkSoil 293.15 0.2 0.5 0.2 "unknown" none none none none).isOk =
      (mkSoil 293.15 0.2 0.5 0.2 "dobson" none none none none).isOk := by
  refine ⟨C7_model_dispatch.2.2.2.1 "unknown" (by decide) (by decide) (by decide),
    C7_model_dispatch.2.2.2.2.2 _ c1_sensor (by decide) (by decide) (by decide),
    C7_model_dispatch.2.2.2.2.1 293.15 0.2 0.5 0.2 "unknown" "dobson" none none none none⟩

/-- Claim C9.  lfmc on a layer whose agb is zero, and mean lfmc on a
canopy whose total agb is zero, hit Python's unguarded float division by
zero; a zero lai, a zero leaf thickness or a water fraction of one each
force agb to zero (when a dry-mass density is present). -/
theorem C9_division_by_zero :
    (∀ l : Layer, Layer.agb l = .ok 0 →
      Layer.lfmc l = .error "ZeroDivisionError: float division by zero") ∧
    (∀ c : Canopy, Canopy.total_agb c = .ok 0 →
      Canopy.mean_lfmc c = .error "ZeroDivisionError: float division by zero") ∧
    (∀ (l : Layer) (d : ℚ), l.dry_mass_density = some d →
      (l.lai = 0 ∨ l.leaf_thickness = 0 ∨ l.water_volumetric_fraction = 1) →
      Layer.agb l = .ok 0) := by
  refine ⟨?_, ?_, ?_⟩
  · intro l h
    have h1 : Layer.lfmc l = pydiv l.layer_water_content 0 := by
      simp only [Layer.lfmc, h]
      rfl
    rw [h1, pydiv, if_pos rfl]
  · intro c h
    have h1 : Canopy.mean_lfmc c = pydiv c.total_vwc 0 := by
      simp only [Canopy.mean_lfmc, h]
      rfl
    rw [h1, pydiv, if_pos rfl]
  · rintro l d hd (h | h | h) <;>
      simp only [Layer.agb, hd, Except.ok.injEq, ONE, THOUSAND, MM_TO_M] <;>
      rw [h] <;> ring_nf

/-- Witness for C9: the default layer (lai 0) has agb 0, its lfmc raises,
and so does the mean lfmc of the canopy holding just that layer. -/
theorem C9_division_by_zero_witness :
    Layer.lfmc defaultNewLayer = .error "ZeroDivisionError: float division by zero" ∧
    Canopy.mean_lfmc ⟨[defaultNewLayer]⟩ =
      .error "ZeroDivisionError: float division by zero" := by
  have hagb : Layer.agb defaultNewLayer = .ok 0 :=
    C9_division_by_zero.2.2 defaultNewLayer DEFAULT_DRY_MASS_DENSITY rfl
      (Or.inl (by norm_num [defaultNewLayer, DEFAULT_LAI]))
  refine ⟨C9_division_by_zero.1 defaultNewLayer hagb,
    C9_division_by_zero.2.1 ⟨[defaultNewLayer]⟩ ?_⟩
  simp [Canopy.total_agb, List.mapM, List.mapM.loop, hagb, Except.map]

/-- Claim C10.  Mironov and Wang compute the same function,
`1 + (water_permittivity − 1)·moisture` with the water permittivity the
call `debye(temperature, frequency)` yields, and at moisture 0 both give
exactly 1. -/
theorem C10_mironov_wang_identical :
    ∀ (s : SoilLike) (f : ℝ),
      mironov_model s f = wang_model s f ∧
      mironov_model s f =
        (debye s.temperature f).map (fun w => 1 + (w - 1) * (s.moisture : ℂ)) ∧
      (s.moisture = 0 → mironov_model s f = .ok 1 ∧ wang_model s f = .ok 1) := by
  intro s f
  refine ⟨rfl, ?_, ?_⟩
  · rw [mironov_eval, debye_eq]
    rfl
  · intro hm
    rw [mironov_eval, wang_eval, hm]
    norm_num

/-- Witness for C10 at a dry soil-like state and 1.4 GHz. -/
theorem C10_mironov_wang_identical_witness :
    mironov_model ⟨0, 0.5, 0.2, 290, 1.3, 2.65⟩ 1.4 = .ok 1 ∧
    wang_model ⟨0, 0.5, 0.2, 290, 1.3, 2.65⟩ 1.4 = .ok 1 :=
  (C10_mironov_wang_identical ⟨0, 0.5, 0.2, 290, 1.3, 2.65⟩ 1.4).2.2 rfl

end Canort
